import Mathlib

/-!
Verification of the dependency-abstraction example in `src/main.rs`.

The program is shallowly embedded as follows:
- Rust's `Display` trait becomes `Displayable T`, a to-string function on `T`.
- The trait `AbxLogger` (two generic logging methods on `&self`, each a side
  effect) becomes a structure of two state-transformer fields over an explicit
  world-state type `σ` (stdout lines for the real logger, the recorded vector
  for the fake one).
- `fn run<L: AbxLogger>(logger: &L)` becomes a function threading the world
  state through the two calls, in source order.
- `mod logger`'s `Logger` is a unit struct whose methods append one formatted
  line to the stdout line list.
- The test's `FakeLogger` (a `RefCell<Vec<String>>`) becomes a structure with a
  `logs : List String` field; `push` is list append at the end.
- An instrumented logger, wrapping an arbitrary implementation, records which
  trait method `run` invokes and with which rendered argument, so that claims
  about "exactly two calls, event then error, for every implementation" are
  about the observable call trace of `run`.
-/

/-- Rust's `Display` bound: the only capability the logging methods use is
rendering the argument to a string (`to_string()` / `println!` formatting). -/
structure Displayable (T : Type) where
  display : T → String

/-- The `Display` instance for string slices: identity rendering. -/
def strDisplay : Displayable String := ⟨fun s => s⟩

/-- The trait `AbxLogger` (src/main.rs lines 35-38): two generic methods,
`abx_log_event` and `abx_log_error`, embedded as transformers of a world
state `σ` since each is a side effect on `&self` returning `()`. -/
structure AbxLogger (σ : Type) : Type 1 where
  abx_log_event : {T : Type} → Displayable T → T → σ → σ
  abx_log_error : {T : Type} → Displayable T → T → σ → σ

/-- `fn run<L: AbxLogger>(logger: &L)` (src/main.rs lines 50-53): calls
`abx_log_event` with `"Some event description"`, then `abx_log_error` with
`"Some error description"`, threading the world state. -/
def run {σ : Type} (logger : AbxLogger σ) (s : σ) : σ :=
  logger.abx_log_error strDisplay "Some error description"
    (logger.abx_log_event strDisplay "Some event description" s)

/-- One observable call on the abstract logger interface: which trait method
was invoked, and the rendered form of its argument. -/
inductive LogCall where
  | event (msg : String)
  | error (msg : String)
deriving DecidableEq, Repr

/-- Instrumentation of an arbitrary `AbxLogger` implementation: performs the
underlying operation and additionally appends the call made to a trace. Used
to state what calls `run` performs for every implementation. -/
def instrument {σ : Type} (L : AbxLogger σ) : AbxLogger (σ × List LogCall) where
  abx_log_event := fun D t p => (L.abx_log_event D t p.1, p.2 ++ [LogCall.event (D.display t)])
  abx_log_error := fun D t p => (L.abx_log_error D t p.1, p.2 ++ [LogCall.error (D.display t)])

/-- The concrete dependency `logger::Logger` (src/main.rs line 10): a unit
struct with no fields. -/
structure Logger

/-- `Logger::new(_credentials: String)` (src/main.rs lines 14-16): the
credential argument is bound to `_credentials` and never used; the body is
`Logger {}`. -/
def Logger.new (_credentials : String) : Logger := ⟨⟩

/-- `Logger::log_event` (src/main.rs lines 19-21): prints one line
`"Event: {description}"`; stdout is embedded as the list of lines printed so
far, and `println!` appends one line. -/
def Logger.log_event {T : Type} (_self : Logger) (D : Displayable T) (description : T)
    (stdout : List String) : List String :=
  stdout ++ ["Event: " ++ D.display description]

/-- `Logger::log_error` (src/main.rs lines 24-26): prints one line
`"Error: {description}"`. -/
def Logger.log_error {T : Type} (_self : Logger) (D : Displayable T) (description : T)
    (stdout : List String) : List String :=
  stdout ++ ["Error: " ++ D.display description]

/-- Modelled from the spec: the `impl AbxLogger for Logger` generated by the
`#[wrap(Logger)]` attribute (src/main.rs line 34) comes from the external
`depabx` macro crate and its expansion is not under src/; the spec says the
adapter "delegates `logEvent`/`logError` directly to the external type's
corresponding methods, with no transformation". -/
def wrapAbxLogger (l : Logger) : AbxLogger (List String) where
  abx_log_event := fun D t out => l.log_event D t out
  abx_log_error := fun D t out => l.log_error D t out

/-- The bootstrap `fn main()` (src/main.rs lines 42-45): constructs the real
dependency with the literal credential and passes it to `run`. -/
def main' (stdout : List String) : List String :=
  run (wrapAbxLogger (Logger.new "prod credentials")) stdout

/-- The test's `FakeLogger` (src/main.rs lines 63-65): a
`RefCell<Vec<String>>` of recorded log strings, embedded as a plain list. -/
structure FakeLogger where
  logs : List String
deriving DecidableEq, Repr

/-- `impl AbxLogger for FakeLogger` (src/main.rs lines 66-73): both methods
push `description.to_string()` onto the backing vector. -/
def FakeLogger.abxLogger : AbxLogger FakeLogger where
  abx_log_event := fun D t f => { logs := f.logs ++ [D.display t] }
  abx_log_error := fun D t f => { logs := f.logs ++ [D.display t] }

/-- `FakeLogger::get_logs` (src/main.rs lines 74-78): clones every element of
the backing vector into a fresh vector. It takes `&self` (a shared borrow),
so it is embedded as a pure function: the recorder state is unchanged by
reading, by construction of the embedding. -/
def FakeLogger.get_logs (f : FakeLogger) : List String :=
  f.logs.map (fun s => s)

/-- The two invocations of the test scenario run back to back, each with an
independent fresh recorder starting from the empty sequence. -/
def run_twice : FakeLogger × FakeLogger :=
  let r1 := run FakeLogger.abxLogger { logs := [] }
  let r2 := run FakeLogger.abxLogger { logs := [] }
  (r1, r2)

/-- A variant of the `AbxLogger` interface whose operations may fail
(`Except ε`), used to state that `run` itself introduces no failure path:
`run` sequences its two calls and does nothing else, so any failure of the
composite can only originate inside the injected implementation. -/
structure AbxLoggerE (ε σ : Type) : Type 1 where
  abx_log_event : {T : Type} → Displayable T → T → σ → Except ε σ
  abx_log_error : {T : Type} → Displayable T → T → σ → Except ε σ

/-- `run` over a possibly failing implementation: the same two calls in the
same order, a failure of either call propagating (Rust panic propagation). -/
def runE {ε σ : Type} (logger : AbxLoggerE ε σ) (s : σ) : Except ε σ :=
  (logger.abx_log_event strDisplay "Some event description" s).bind
    (fun s1 => logger.abx_log_error strDisplay "Some error description" s1)

/-- A fallible-interface view of the fake recorder whose operations always
succeed; a concrete implementation with no failures of its own. -/
def fakeLoggerE : AbxLoggerE String FakeLogger where
  abx_log_event := fun D t f => Except.ok { logs := f.logs ++ [D.display t] }
  abx_log_error := fun D t f => Except.ok { logs := f.logs ++ [D.display t] }

/-- C1: for every implementation of the `AbxLogger` interface and every
starting state, `run` performs exactly two logging operations, in the fixed
order event then error (witnessed by the instrumented call trace), and its
effect on the implementation's state is exactly that of those two calls. -/
theorem run_exactly_two_calls_event_then_error {σ : Type} (L : AbxLogger σ) (s : σ) :
    (run (instrument L) (s, [])).2
      = [LogCall.event "Some event description", LogCall.error "Some error description"]
    ∧ (run (instrument L) (s, [])).1 = run L s :=
  ⟨rfl, rfl⟩

/-- C2: running `run` on a fresh fake recorder with an empty sequence records
exactly the two expected strings: length 2, first `"Some event description"`,
second `"Some error description"`. -/
theorem run_fake_records_exact_sequence :
    FakeLogger.get_logs (run FakeLogger.abxLogger { logs := [] })
      = ["Some event description", "Some error description"]
    ∧ (FakeLogger.get_logs (run FakeLogger.abxLogger { logs := [] })).length = 2
    ∧ (FakeLogger.get_logs (run FakeLogger.abxLogger { logs := [] }))[0]?
      = some "Some event description"
    ∧ (FakeLogger.get_logs (run FakeLogger.abxLogger { logs := [] }))[1]?
      = some "Some error description" :=
  ⟨rfl, rfl, rfl, rfl⟩

/-- C3: each single call to `abx_log_event` or `abx_log_error` on the fake
recorder appends exactly one entry to the backing sequence: the length grows
by exactly one, the previously recorded entries are unchanged in place (the
prefix of the old length is the old sequence), and the new entry — the
rendered input — sits at the end. -/
theorem fake_logger_appends_exactly_one {T : Type} (D : Displayable T) (t : T)
    (f : FakeLogger) :
    ((FakeLogger.abxLogger.abx_log_event D t f).logs.length = f.logs.length + 1
      ∧ (FakeLogger.abxLogger.abx_log_event D t f).logs.take f.logs.length = f.logs
      ∧ (FakeLogger.abxLogger.abx_log_event D t f).logs.getLast? = some (D.display t))
    ∧ ((FakeLogger.abxLogger.abx_log_error D t f).logs.length = f.logs.length + 1
      ∧ (FakeLogger.abxLogger.abx_log_error D t f).logs.take f.logs.length = f.logs
      ∧ (FakeLogger.abxLogger.abx_log_error D t f).logs.getLast? = some (D.display t)) := by
  refine ⟨⟨?_, ?_, ?_⟩, ⟨?_, ?_, ?_⟩⟩ <;>
    simp [FakeLogger.abxLogger, List.take_left]

/-- C4: the adapter over the concrete `Logger` delegates `abx_log_event` and
`abx_log_error` one-to-one to `Logger::log_event` and `Logger::log_error`
respectively: for every displayable input and every output state, the
abstract operation and the corresponding concrete method agree exactly. -/
theorem wrap_adapter_delegates (l : Logger) (T : Type) (D : Displayable T) (t : T)
    (out : List String) :
    (wrapAbxLogger l).abx_log_event D t out = l.log_event D t out
    ∧ (wrapAbxLogger l).abx_log_error D t out = l.log_error D t out :=
  ⟨rfl, rfl⟩

/-- C5: running `run` twice, each time with an independent fresh recorder
starting empty, yields two recorded sequences each equal to the expected one,
and the second invocation's result coincides with that of a standalone single
invocation — it is unaffected by the first. -/
theorem run_twice_independent :
    FakeLogger.get_logs run_twice.1 = ["Some event description", "Some error description"]
    ∧ FakeLogger.get_logs run_twice.2 = ["Some event description", "Some error description"]
    ∧ run_twice.2 = run FakeLogger.abxLogger { logs := [] } :=
  ⟨rfl, rfl, rfl⟩

/-- C6: for every displayable input, `Logger::log_event` emits exactly one
line to stdout, of the form `"Event: "` followed by the rendered input, and
`Logger::log_error` exactly one line `"Error: "` followed by the rendered
input: the line count grows by one, prior lines are unchanged, and the new
line with the stated format is the last. -/
theorem logger_prints_one_formatted_line {T : Type} (l : Logger) (D : Displayable T)
    (t : T) (out : List String) :
    ((l.log_event D t out).length = out.length + 1
      ∧ (l.log_event D t out).take out.length = out
      ∧ (l.log_event D t out).getLast? = some ("Event: " ++ D.display t))
    ∧ ((l.log_error D t out).length = out.length + 1
      ∧ (l.log_error D t out).take out.length = out
      ∧ (l.log_error D t out).getLast? = some ("Error: " ++ D.display t)) := by
  refine ⟨⟨?_, ?_, ?_⟩, ⟨?_, ?_, ?_⟩⟩ <;>
    simp [Logger.log_event, Logger.log_error, List.take_left]

/-- C7: `get_logs` returns a copy equal element-for-element, in call order, to
the recorder's internal sequence; reading takes only a shared borrow, so the
recorder's state is unchanged by the call (in this embedding `get_logs` is a
pure function of the recorder, which it does not rebuild or return). -/
theorem get_logs_returns_copy_of_internal (f : FakeLogger) :
    FakeLogger.get_logs f = f.logs := by
  simp [FakeLogger.get_logs]

/-- C8: `run` has no failure path of its own: over the fallible interface, if
every call to either operation of the supplied implementation succeeds, then
`run` terminates normally with a success value — its only possible failures
are those of the injected implementation. -/
theorem run_no_failure_path {ε σ : Type} (L : AbxLoggerE ε σ)
    (hev : ∀ {T : Type} (D : Displayable T) (t : T) (s : σ),
      ∃ s', L.abx_log_event D t s = Except.ok s')
    (her : ∀ {T : Type} (D : Displayable T) (t : T) (s : σ),
      ∃ s', L.abx_log_error D t s = Except.ok s')
    (s : σ) :
    ∃ s', runE L s = Except.ok s' := by
  obtain ⟨s1, h1⟩ := hev strDisplay "Some event description" s
  obtain ⟨s2, h2⟩ := her strDisplay "Some error description" s1
  exact ⟨s2, by simp [runE, h1, h2, Except.bind]⟩

/-- Witness for C8: the fallible view of the fake recorder never fails, and
`run` over it succeeds from the empty recorder. -/
theorem run_no_failure_path_witness :
    ∃ s', runE fakeLoggerE { logs := [] } = Except.ok s' :=
  run_no_failure_path fakeLoggerE
    (fun {_T} D t s => ⟨{ logs := s.logs ++ [D.display t] }, rfl⟩)
    (fun {_T} D t s => ⟨{ logs := s.logs ++ [D.display t] }, rfl⟩)
    { logs := [] }

/-- C9: on the fake recorder the two interface operations are extensionally
equal: for every displayable input and every recorder state they produce the
identical resulting state, since both only push the rendered input. -/
theorem fake_event_error_extensionally_equal {T : Type} (D : Displayable T) (t : T)
    (f : FakeLogger) :
    FakeLogger.abxLogger.abx_log_event D t f = FakeLogger.abxLogger.abx_log_error D t f :=
  rfl

/-- C10: `Logger::new` ignores its credential argument: for any two credential
strings the constructed loggers are equal and behave identically on
`log_event` and `log_error` for every displayable input; construction is a
total function, so it never fails. -/
theorem logger_new_ignores_credentials (c1 c2 : String) :
    Logger.new c1 = Logger.new c2
    ∧ ∀ (T : Type) (D : Displayable T) (t : T) (out : List String),
        (Logger.new c1).log_event D t out = (Logger.new c2).log_event D t out
        ∧ (Logger.new c1).log_error D t out = (Logger.new c2).log_error D t out :=
  ⟨rfl, fun _ _ _ _ => ⟨rfl, rfl⟩⟩
